import Mathlib

/-!
Verification development for the SSH-Demo server (src/main.go).

The per-channel session controller is the anonymous goroutine launched in
handleConn for every accepted "session" channel.  It reads the request
stream sequentially, keeps four local variables (ptyRequested, ptyCols,
ptyRows, ptyFile) and, once a shell or exec request has been accepted and
its process has terminated, sends an exit-status notification and returns,
closing the channel.  We embed that loop as a function from the local state
and the request list to the list of externally observable events, with the
outcomes of the environment calls (payload unmarshalling, os.Stat on
/bin/bash, pty.Start or cmd.Start, cmd.Wait) supplied as oracle fields on
each request.
-/

namespace SSHDemo

/-- Termination status of a child process as seen through
syscall.WaitStatus: either a normal exit with a code, or death by a
signal. -/
inductive WaitStatus where
  | exited (code : Nat)
  | signaled (sig : Nat)
deriving DecidableEq, Repr

/-- Result of cmd.Wait() as branched on in src/main.go: nil (success),
an exec.ExitError wrapping a syscall.WaitStatus, or any other error
(for example an io copy error), which the code does not convert into an
exit-status notification. -/
inductive WaitOutcome where
  | success
  | exitError (ws : WaitStatus)
  | otherError
deriving DecidableEq, Repr

/-- Go WaitStatus.ExitStatus(): the exit code for a normal exit and -1
for a signal-terminated process. -/
def exitStatusOf : WaitStatus → Int
  | .exited code => code
  | .signaled _ => -1

/-- Conversion of a Go int to uint32, as performed by the cast in
sendExitStatus (src/main.go:263). -/
def uint32Of (i : Int) : Nat := (i % (2 ^ 32 : Int)).toNat

/-- Environment outcomes consulted while handling one shell or exec
request: whether os.Stat finds /bin/bash, whether pty.Start or cmd.Start
succeeds, and what cmd.Wait returns if the process starts. -/
structure RunEnv where
  bashAvailable : Bool
  startOk : Bool
  wait : WaitOutcome
deriving DecidableEq, Repr

/-- One request delivered on the channel request stream.  Payload
unmarshalling by ssh.Unmarshal is modelled by the parseOk flag together
with the parsed fields; only the fields the code reads are kept
(src/main.go reads Cols and Rows from pty-req and window-change, the
command string from exec, and the raw payload length from shell). -/
inductive Request where
  | ptyReq (parseOk : Bool) (cols rows : Nat)
  | windowChange (parseOk : Bool) (cols rows : Nat)
  | shell (payload : List Nat) (env : RunEnv)
  | exec (parseOk : Bool) (command : String) (env : RunEnv)
  | other (reqType : String)

/-- How the standard streams of a spawned process are attached, matching
the three spawn sites in src/main.go: pty.Start attaches all three
streams to the terminal file; the non-pty shell branch uses
StdinPipe/StdoutPipe/StderrPipe with io.Copy relays to the channel; the
exec branch sets Stdin and Stdout to the channel and Stderr to the
extended-data stream of the channel directly. -/
inductive Attach where
  | ptyFileAttach
  | pipes
  | channelDirect
deriving DecidableEq, Repr

/-- Externally observable action of the controller: a request reply, a
process spawn, a pty.Setsize call (recording the Winsize actually
passed, after the uint16 casts), an exit-status notification
(sendExitStatus), or closing the channel. -/
inductive Event where
  | reply (ok : Bool)
  | spawn (argv : List String) (attach : Attach)
  | setsize (cols rows : Nat)
  | exitStatusMsg (status : Nat)
  | closeChannel
deriving DecidableEq, Repr

/-- The four local variables of the per-channel goroutine in handleConn:
ptyRequested, ptyCols, ptyRows, and whether ptyFile is non-nil. -/
structure SessState where
  ptyRequested : Bool
  ptyCols : Nat
  ptyRows : Nat
  ptyFile : Bool
deriving DecidableEq, Repr

/-- Initial per-channel state: the zero values of the four locals. -/
def initState : SessState := ⟨false, 0, 0, false⟩

/-- Events produced by the cmd.Wait branching shared by all three run
paths in src/main.go: err == nil sends exit-status 0; an exec.ExitError
carrying a syscall.WaitStatus sends uint32(ExitStatus()); any other
error sends nothing. -/
def waitEvents : WaitOutcome → List Event
  | .success => [.exitStatusMsg 0]
  | .exitError ws => [.exitStatusMsg (uint32Of (exitStatusOf ws))]
  | .otherError => []

/-- Shell path resolution in the shell branch: /bin/bash when os.Stat
succeeds on it, otherwise /bin/sh. -/
def shellPathOf (env : RunEnv) : String :=
  if env.bashAvailable then "/bin/bash" else "/bin/sh"

/-- Embedding of the request loop of the per-channel goroutine in
handleConn (src/main.go:107-254).  The loop is sequential: after a run
request is accepted and its process has been waited on, the goroutine
returns, so the remaining requests are never read; the deferred
ch.Close() is the final closeChannel event.  The uint16 casts in the
pty.Setsize calls are recorded as reduction modulo 65536. -/
def handleRequests : SessState → List Request → List Event
  | _, [] => [.closeChannel]
  | st, req :: rest =>
    match req with
    | .ptyReq parseOk cols rows =>
      if parseOk then
        .reply true ::
          handleRequests { st with ptyRequested := true, ptyCols := cols, ptyRows := rows } rest
      else
        .reply false :: handleRequests st rest
    | .windowChange parseOk cols rows =>
      if parseOk then
        if st.ptyFile then
          .setsize (cols % 65536) (rows % 65536) ::
            handleRequests { st with ptyCols := cols, ptyRows := rows } rest
        else
          handleRequests { st with ptyCols := cols, ptyRows := rows } rest
      else
        handleRequests st rest
    | .shell payload env =>
      if payload ≠ [] then
        .reply false :: handleRequests st rest
      else if st.ptyRequested then
        if env.startOk then
          .spawn [shellPathOf env, "-l"] .ptyFileAttach ::
            ((if 0 < st.ptyCols ∧ 0 < st.ptyRows then
                [Event.setsize (st.ptyCols % 65536) (st.ptyRows % 65536)]
              else []) ++
              .reply true :: waitEvents env.wait ++ [.closeChannel])
        else
          .reply false :: handleRequests st rest
      else
        if env.startOk then
          .spawn [shellPathOf env, "-l"] .pipes ::
            .reply true :: waitEvents env.wait ++ [.closeChannel]
        else
          .reply false :: handleRequests st rest
    | .exec parseOk command env =>
      if parseOk then
        if env.startOk then
          .spawn ["/bin/sh", "-c", command] .channelDirect ::
            .reply true :: waitEvents env.wait ++ [.closeChannel]
        else
          .reply false :: handleRequests st rest
      else
        .reply false :: handleRequests st rest
    | .other _ => .reply false :: handleRequests st rest

/-- Number of spawn events in a trace. -/
def spawnCount : List Event → Nat
  | [] => 0
  | .spawn _ _ :: tr => spawnCount tr + 1
  | _ :: tr => spawnCount tr

/-- Exit-status payload produced for a given cmd.Wait outcome: 0 for
nil, uint32(ExitStatus()) for an exec.ExitError; the otherError case is
never sent and is mapped to 0 only to make the function total. -/
def statusPayload : WaitOutcome → Nat
  | .success => 0
  | .exitError ws => uint32Of (exitStatusOf ws)
  | .otherError => 0

/-- The exit-status payloads occurring in a trace, in order. -/
def exitStatusMsgs : List Event → List Nat
  | [] => []
  | .exitStatusMsg s :: tr => s :: exitStatusMsgs tr
  | _ :: tr => exitStatusMsgs tr

/-- The Winsize values passed to pty.Setsize in a trace, in order. -/
def setsizes (tr : List Event) : List (Nat × Nat) :=
  tr.filterMap fun e => match e with | .setsize c r => some (c, r) | _ => none

/-- The request replies sent in a trace, in order. -/
def replies (tr : List Event) : List Bool :=
  tr.filterMap fun e => match e with | .reply b => some b | _ => none

/-- Exit reporting contract of the trace of one accepted run request:
exactly one process is spawned; the exit-status notifications of the
trace are exactly one message carrying the payload computed from the
cmd.Wait outcome when that outcome is nil or an exec.ExitError, and
none at all when cmd.Wait returns any other error; and the final event
of the trace is the channel close. -/
def exitReportOk (w : WaitOutcome) (tr : List Event) : Prop :=
  spawnCount tr = 1 ∧
  exitStatusMsgs tr = (if w = .otherError then [] else [statusPayload w]) ∧
  tr.getLast? = some Event.closeChannel

/-- One inbound channel-open event: its channel type and the outcome of
newChannel.Accept(). -/
structure OpenEvent where
  chanType : String
  acceptOk : Bool

/-- Observable action of the connection supervisor loop on one
channel-open event. -/
inductive SupEvent where
  | rejectOpen (message : String)
  | controllerStarted
deriving DecidableEq, Repr

/-- Embedding of the channel-open loop in handleConn
(src/main.go:93-107): a non-session channel type is rejected with
UnknownChannelType, otherwise Accept is attempted; on success a
controller goroutine is launched, on failure the event is logged and
skipped. -/
def superviseOpen (ev : OpenEvent) : List SupEvent :=
  if ev.chanType ≠ "session" then
    [.rejectOpen "only session channels are supported"]
  else if ev.acceptOk then
    [.controllerStarted]
  else
    []

/-!
Interleaving model of the output relay against exit-status reporting.

In the pty shell branch of src/main.go the controller goroutine runs
"go func() { io.Copy(ch, f) }()" and then proceeds to cmd.Wait() and
sendExitStatus without joining that relay goroutine; the non-pty shell
branch does the same with the StdoutPipe relay.  We model the two
concurrent tasks (the output relay and the controller after Wait has
returned) as steps on a shared state and let an explicit schedule pick
who runs; the peer observes the interleaved result.
-/

/-- A message observed by the peer on the channel: a relayed output byte
or the exit-status notification. -/
inductive ChMsg where
  | data (b : Nat)
  | exitNotice (status : Nat)
deriving DecidableEq, Repr

/-- Shared state of the relay race in the pty shell branch: bytes the
process wrote to its side of the terminal that the io.Copy goroutine has
not yet moved to the channel, whether cmd.Wait has returned, whether
sendExitStatus has run, and the sequence of messages the peer has seen
so far. -/
structure RelayState where
  pendingOut : List Nat
  waitReturned : Bool
  exitSent : Bool
  peerView : List ChMsg
deriving DecidableEq, Repr

/-- The two tasks racing after the process terminates: the io.Copy
output relay goroutine and the controller goroutine continuing past
cmd.Wait into sendExitStatus. -/
inductive RelayTask where
  | copyToPeer
  | controller
deriving DecidableEq, Repr

/-- One scheduler step: the relay moves the next pending byte to the
channel; the controller, once cmd.Wait has returned and the notice is
still unsent, sends the exit-status notification (the code imposes no
ordering between the two — sendExitStatus is reached without joining
the relay goroutine). -/
def relayStep : RelayTask → RelayState → RelayState
  | .copyToPeer, s =>
    match s.pendingOut with
    | [] => s
    | b :: rest => { s with pendingOut := rest, peerView := s.peerView ++ [.data b] }
  | .controller, s =>
    if s.waitReturned ∧ ¬s.exitSent then
      { s with exitSent := true, peerView := s.peerView ++ [.exitNotice 0] }
    else
      s

/-- Run the race under an explicit schedule. -/
def relayRun : List RelayTask → RelayState → RelayState
  | [], s => s
  | t :: ts, s => relayRun ts (relayStep t s)

/-- The bytes of "done\n". -/
def doneBytes : List Nat := [100, 111, 110, 101, 10]

/-- State reached when the process has written "done\n", exited with
code 0, and cmd.Wait has returned, while the relay goroutine has not yet
copied the bytes to the channel. -/
def afterDoneExit : RelayState := ⟨doneBytes, true, false, []⟩

/-- A schedule the code permits: the controller runs sendExitStatus
before the relay goroutine drains the pending output. -/
def truncatingSchedule : List RelayTask :=
  [.controller, .copyToPeer, .copyToPeer, .copyToPeer, .copyToPeer, .copyToPeer]

/-- True when some relayed output byte is observed after an exit-status
notification, that is, when the ordering required of exit reporting is
violated. -/
def dataAfterExit : List ChMsg → Bool
  | [] => false
  | .exitNotice _ :: rest =>
    rest.any fun m => match m with | .data _ => true | _ => false
  | .data _ :: rest => dataAfterExit rest

/-! Helper lemmas. -/

theorem spawnCount_append (a b : List Event) :
    spawnCount (a ++ b) = spawnCount a + spawnCount b := by
  induction a with
  | nil => simp [spawnCount]
  | cons e tr ih =>
    cases e <;> simp [spawnCount, ih]
    omega

theorem spawnCount_waitEvents (w : WaitOutcome) : spawnCount (waitEvents w) = 0 := by
  cases w <;> simp [waitEvents, spawnCount]

theorem setsizes_append (a b : List Event) :
    setsizes (a ++ b) = setsizes a ++ setsizes b := by
  simp [setsizes, List.filterMap_append]

theorem setsizes_waitEvents (w : WaitOutcome) : setsizes (waitEvents w) = [] := by
  cases w <;> simp [waitEvents, setsizes]

theorem exitStatusMsgs_append (a b : List Event) :
    exitStatusMsgs (a ++ b) = exitStatusMsgs a ++ exitStatusMsgs b := by
  induction a with
  | nil => simp [exitStatusMsgs]
  | cons e tr ih => cases e <;> simp [exitStatusMsgs, ih]

theorem exitStatusMsgs_waitEvents (w : WaitOutcome) :
    exitStatusMsgs (waitEvents w) =
      (if w = WaitOutcome.otherError then [] else [statusPayload w]) := by
  cases w <;> simp [waitEvents, exitStatusMsgs, statusPayload]

theorem getLast?_cons_close (e : Event) (tr : List Event)
    (h : tr.getLast? = some Event.closeChannel) :
    (e :: tr).getLast? = some Event.closeChannel := by
  cases tr with
  | nil => simp at h
  | cons f tr2 => rw [List.getLast?_cons_cons]; exact h

/-! Claim theorems. -/

/-- C1 (counterexample): on a channel where a shell request has been
accepted and its process has run to completion, a second shell request
is not answered with a reject reply — the trace of the two-request
stream contains no reject reply at all, because the goroutine returned
after the first run; exactly one process is spawned. -/
theorem C1_counterexample :
    handleRequests initState
        [.shell [] ⟨false, true, .success⟩, .shell [] ⟨false, true, .success⟩] =
      [.spawn ["/bin/sh", "-l"] .pipes, .reply true, .exitStatusMsg 0, .closeChannel] ∧
    Event.reply false ∉ handleRequests initState
        [.shell [] ⟨false, true, .success⟩, .shell [] ⟨false, true, .success⟩] := by
  decide

/-- C1 (amended): for every channel, at most one run request starts a
process — every trace of the request loop contains at most one spawn
event; once a run request is accepted the loop stops reading requests,
so subsequent shell or exec requests are never processed (and receive
no reply) and can start no process. -/
theorem C1_amended (reqs : List Request) : ∀ st : SessState,
    spawnCount (handleRequests st reqs) ≤ 1 := by
  induction reqs with
  | nil => intro st; simp [handleRequests, spawnCount]
  | cons req rest ih =>
    intro st
    cases req with
    | ptyReq parseOk cols rows =>
      cases parseOk <;> simp [handleRequests, spawnCount] <;> apply ih
    | windowChange parseOk cols rows =>
      cases parseOk
      · simp [handleRequests, spawnCount]; apply ih
      · cases hf : st.ptyFile <;> (simp [handleRequests, spawnCount, hf]; apply ih)
    | shell payload env =>
      by_cases hp : payload = []
      · subst hp
        cases hpt : st.ptyRequested <;> cases hs : env.startOk <;>
          simp [handleRequests, spawnCount, hpt, hs, spawnCount_append,
            spawnCount_waitEvents]
        · apply ih
        · apply ih
        · split <;> simp [spawnCount, spawnCount_append, spawnCount_waitEvents]
      · simp [handleRequests, spawnCount, hp]; apply ih
    | exec parseOk command env =>
      cases parseOk
      · simp [handleRequests, spawnCount]; apply ih
      · cases hs : env.startOk <;>
          simp [handleRequests, spawnCount, hs, spawnCount_append, spawnCount_waitEvents]
        apply ih
    | other reqType =>
      simp [handleRequests, spawnCount]; apply ih

/-- C2: the code permits an interleaving in which the exit-status
notification reaches the peer before the "done\n" bytes the process
wrote before exiting — the controller calls sendExitStatus directly
after cmd.Wait returns, without joining the output relay goroutine, so
the schedule that runs the controller first is reachable and the peer
observes the exit notice before any data byte. -/
theorem C2_exit_before_output :
    (relayRun truncatingSchedule afterDoneExit).peerView =
      ChMsg.exitNotice 0 :: doneBytes.map ChMsg.data ∧
    dataAfterExit (relayRun truncatingSchedule afterDoneExit).peerView = true := by
  decide

/-- C3 (counterexample): the request sequence
[resize(80,24), terminal-request(120,40), run-interactive-command]
starts a terminal sized 120x40, not 80x24 — the pty-req handler
overwrites the geometry recorded by the earlier window-change with the
columns and rows of its own payload. -/
theorem C3_counterexample :
    setsizes (handleRequests initState
        [.windowChange true 80 24, .ptyReq true 120 40, .shell [] ⟨false, true, .success⟩]) =
      [(120, 40)] ∧
    (80, 24) ∉ setsizes (handleRequests initState
        [.windowChange true 80 24, .ptyReq true 120 40, .shell [] ⟨false, true, .success⟩]) := by
  decide

/-- C3 (amended): a resize received before terminal allocation updates
the recorded geometry but is overwritten by a subsequent
terminal-request, which records its own columns and rows; the sequence
[resize(c,r), terminal-request(80,24), run-interactive-command] yields
a started terminal sized 80x24 for every earlier resize geometry. -/
theorem C3_amended (st : SessState) (c r : Nat) (env : RunEnv)
    (hf : st.ptyFile = false) (hs : env.startOk = true) :
    setsizes (handleRequests st
        [.windowChange true c r, .ptyReq true 80 24, .shell [] env]) = [(80, 24)] := by
  simp [handleRequests, hf, hs, setsizes, setsizes_append]
  cases env.wait <;> simp [waitEvents]

/-- C3 (witness): instance of the amended theorem at the initial state
with an earlier resize to 100x30. -/
theorem C3_witness :
    setsizes (handleRequests initState
        [.windowChange true 100 30, .ptyReq true 80 24, .shell [] ⟨false, true, .success⟩]) =
      [(80, 24)] :=
  C3_amended initState 100 30 ⟨false, true, .success⟩ rfl rfl

/-- C4 (counterexample): a spawned process whose cmd.Wait returns an
error that is not an exec.ExitError (for example an io copy error)
produces no exit-status notification at all — the channel is closed
with nothing sent — although exactly one process was spawned and
terminated. -/
theorem C4_counterexample :
    handleRequests initState [.exec true "date" ⟨false, true, .otherError⟩] =
      [.spawn ["/bin/sh", "-c", "date"] .channelDirect, .reply true, .closeChannel] ∧
    exitStatusMsgs (handleRequests initState [.exec true "date" ⟨false, true, .otherError⟩]) =
      [] := by
  decide

/-- C4 (amended): for every spawned process on every run path — the
interactive shell attached to a terminal, the interactive shell on
pipes, and an exec command — if cmd.Wait returns nil or an
exec.ExitError carrying a WaitStatus, exactly one exit-status
notification is sent, with payload uint32(ExitStatus()) — the exit
code for a normal exit (0 on success) and 4294967295 for a
signal-terminated process — and the channel is closed afterwards; if
Wait returns any other error, no exit-status notification is sent
though the channel is still closed. -/
theorem C4_amended (st : SessState) (rest : List Request) (c : String)
    (env : RunEnv) (hs : env.startOk = true) :
    exitReportOk env.wait (handleRequests st (.shell [] env :: rest)) ∧
    exitReportOk env.wait (handleRequests st (.exec true c env :: rest)) ∧
    (∀ code : Nat, code < 4294967296 →
      statusPayload (.exitError (.exited code)) = code) ∧
    (∀ sig : Nat, statusPayload (.exitError (.signaled sig)) = 4294967295) := by
  refine ⟨?_, ?_, ?_, ?_⟩
  · cases hpt : st.ptyRequested
    · refine ⟨?_, ?_, ?_⟩ <;>
        simp [handleRequests, hs, hpt, spawnCount, spawnCount_append, spawnCount_waitEvents,
          exitStatusMsgs, exitStatusMsgs_append, exitStatusMsgs_waitEvents,
          getLast?_cons_close, List.getLast?_concat]
    · rcases Classical.em (0 < st.ptyCols ∧ 0 < st.ptyRows) with hg | hg <;>
        refine ⟨?_, ?_, ?_⟩ <;>
          simp [handleRequests, hs, hpt, hg, spawnCount, spawnCount_append, spawnCount_waitEvents,
            exitStatusMsgs, exitStatusMsgs_append, exitStatusMsgs_waitEvents,
            getLast?_cons_close, List.getLast?_concat]
  · refine ⟨?_, ?_, ?_⟩ <;>
      simp [handleRequests, hs, spawnCount, spawnCount_append, spawnCount_waitEvents,
        exitStatusMsgs, exitStatusMsgs_append, exitStatusMsgs_waitEvents,
        getLast?_cons_close, List.getLast?_concat]
  · intro code hcode
    simp [statusPayload, uint32Of, exitStatusOf]
    omega
  · intro sig
    simp [statusPayload, uint32Of, exitStatusOf]

/-- C4 (witness): instances of the amended theorem for a shell and an
exec whose process exits with code 7, for an exec whose cmd.Wait
returns a non-ExitError error, and the payload facts at code 7 and
signal 9. -/
theorem C4_witness :
    exitReportOk (.exitError (.exited 7))
      (handleRequests initState [.shell [] ⟨false, true, .exitError (.exited 7)⟩]) ∧
    exitReportOk (.exitError (.exited 7))
      (handleRequests initState [.exec true "exit 7" ⟨false, true, .exitError (.exited 7)⟩]) ∧
    exitReportOk .otherError
      (handleRequests initState [.exec true "date" ⟨false, true, .otherError⟩]) ∧
    statusPayload (.exitError (.exited 7)) = 7 ∧
    statusPayload (.exitError (.signaled 9)) = 4294967295 := by
  have h1 := C4_amended initState [] "exit 7" ⟨false, true, .exitError (.exited 7)⟩ rfl
  have h2 := C4_amended initState [] "date" ⟨false, true, .otherError⟩ rfl
  exact ⟨h1.1, h1.2.1, h2.2.1, h1.2.2.1 7 (by norm_num), h1.2.2.2 9⟩

/-- C5: when pty.Start or cmd.Start fails while handling a shell or
exec request, the request is answered with a reject reply and the loop
continues with the per-channel state unchanged — the trace is the
reject reply followed by the trace of the remaining requests from the
same state, so no process is spawned and no exit-status notification is
produced for the failed request, and the channel stays open. -/
theorem C5_spawn_failure (st : SessState) (rest : List Request) (c : String)
    (env envx : RunEnv) (h : env.startOk = false) (hx : envx.startOk = false) :
    handleRequests st (.shell [] env :: rest) = .reply false :: handleRequests st rest ∧
    handleRequests st (.exec true c envx :: rest) = .reply false :: handleRequests st rest := by
  constructor
  · cases hpt : st.ptyRequested <;> simp [handleRequests, hpt, h]
  · simp [handleRequests, hx]

/-- C5 (witness): instance at the initial state with an empty remaining
stream. -/
theorem C5_witness :
    handleRequests initState [.shell [] ⟨true, false, .success⟩] =
      .reply false :: handleRequests initState [] ∧
    handleRequests initState [.exec true "ls" ⟨true, false, .success⟩] =
      .reply false :: handleRequests initState [] :=
  C5_spawn_failure initState [] "ls" ⟨true, false, .success⟩ ⟨true, false, .success⟩ rfl rfl

/-- C6: an accepted exec request carrying command c starts exactly
/bin/sh -c c with stdin and stdout attached to the channel and stderr to
the extended-data stream of the channel (Attach.channelDirect), with no
pseudo-terminal, for every per-channel state — in particular also when
a terminal-request was previously accepted (st.ptyRequested true). -/
theorem C6_exec_direct (st : SessState) (rest : List Request) (c : String)
    (env : RunEnv) (hs : env.startOk = true) :
    handleRequests st (.exec true c env :: rest) =
      .spawn ["/bin/sh", "-c", c] .channelDirect ::
        .reply true :: (waitEvents env.wait ++ [.closeChannel]) := by
  simp [handleRequests, hs]

/-- C6 (witness): instance in a state where a terminal was previously
requested. -/
theorem C6_witness :
    handleRequests ⟨true, 80, 24, false⟩ [.exec true "echo hi" ⟨true, true, .success⟩] =
      .spawn ["/bin/sh", "-c", "echo hi"] .channelDirect ::
        .reply true :: (waitEvents .success ++ [.closeChannel]) :=
  C6_exec_direct ⟨true, 80, 24, false⟩ [] "echo hi" ⟨true, true, .success⟩ rfl

/-- C7: a shell request with a non-empty payload is answered with a
reject reply, starts no process, and leaves the per-channel state
unchanged — the trace is the reject reply followed by the trace of the
remaining requests from the same state. -/
theorem C7_nonempty_shell_rejected (st : SessState) (rest : List Request)
    (payload : List Nat) (env : RunEnv) (hp : payload ≠ []) :
    handleRequests st (.shell payload env :: rest) =
      .reply false :: handleRequests st rest := by
  simp [handleRequests, hp]

/-- C7 (witness): instance with payload "ls" at the initial state. -/
theorem C7_witness :
    handleRequests initState [.shell [108, 115] ⟨true, true, .success⟩] =
      .reply false :: handleRequests initState [] :=
  C7_nonempty_shell_rejected initState [] [108, 115] ⟨true, true, .success⟩ (by decide)

/-- C8 (counterexample): a session-type channel-open event whose
transport-level Accept fails produces no controller — so not every
session-type open is handed to a controller task. -/
theorem C8_counterexample :
    superviseOpen ⟨"session", false⟩ = [] ∧
    SupEvent.controllerStarted ∉ superviseOpen ⟨"session", false⟩ := by
  decide

/-- C8 (amended): every channel-open event of a type other than
"session" is rejected with the unsupported-channel-type reply and
creates no controller; every session-type open is accepted, and a
controller task is created exactly when the transport-level Accept
succeeds (an Accept failure is logged and skipped). -/
theorem C8_amended (ev : OpenEvent) :
    (ev.chanType ≠ "session" →
      superviseOpen ev = [.rejectOpen "only session channels are supported"]) ∧
    (ev.chanType = "session" →
      superviseOpen ev = if ev.acceptOk then [.controllerStarted] else []) := by
  constructor
  · intro h; simp [superviseOpen, h]
  · intro h; simp [superviseOpen, h]

/-- C8 (witness): instances at a direct-tcpip open and at a session
open with a successful Accept. -/
theorem C8_witness :
    superviseOpen ⟨"direct-tcpip", true⟩ =
      [.rejectOpen "only session channels are supported"] ∧
    superviseOpen ⟨"session", true⟩ = [.controllerStarted] := by
  refine ⟨(C8_amended ⟨"direct-tcpip", true⟩).1 (by decide), ?_⟩
  have h := (C8_amended ⟨"session", true⟩).2 rfl
  simpa using h

/-- C9: a pty-req whose payload fails to unmarshal, an exec whose
payload fails to unmarshal, and a request of an unsupported type are
each answered with a reject reply while the per-channel state is left
unchanged — the trace is the reject reply followed by the trace of the
remaining requests from the same state. -/
theorem C9_reject_frame (st : SessState) (rest : List Request)
    (cols rows : Nat) (c : String) (env : RunEnv) (t : String) :
    handleRequests st (.ptyReq false cols rows :: rest) =
      .reply false :: handleRequests st rest ∧
    handleRequests st (.exec false c env :: rest) =
      .reply false :: handleRequests st rest ∧
    handleRequests st (.other t :: rest) =
      .reply false :: handleRequests st rest := by
  refine ⟨?_, ?_, ?_⟩ <;> simp [handleRequests]

/-- C10: whenever a geometry is applied to the terminal, the uint32
columns and rows are truncated to 16 bits: the initial sizing after a
terminal-request with geometry (c, r) passes (c mod 65536, r mod 65536)
to pty.Setsize, and a window-change handled while the terminal file is
live likewise applies (c mod 65536, r mod 65536). -/
theorem C10_truncation (st : SessState) (rest : List Request)
    (c r : Nat) (env : RunEnv)
    (hs : env.startOk = true) (hc : 0 < c) (hr : 0 < r) :
    handleRequests st (.ptyReq true c r :: .shell [] env :: rest) =
      .reply true :: .spawn [shellPathOf env, "-l"] .ptyFileAttach ::
        .setsize (c % 65536) (r % 65536) ::
          .reply true :: (waitEvents env.wait ++ [.closeChannel]) ∧
    (st.ptyFile = true →
      handleRequests st (.windowChange true c r :: rest) =
        .setsize (c % 65536) (r % 65536) ::
          handleRequests { st with ptyCols := c, ptyRows := r } rest) := by
  constructor
  · simp [handleRequests, hs, hc, hr]
  · intro hf; simp [handleRequests, hf]

/-- C10 (witness): instance with geometry 70000x100000, truncated to
4464x34464, in a state with a live terminal file. -/
theorem C10_witness :
    handleRequests ⟨false, 0, 0, true⟩
        [.ptyReq true 70000 100000, .shell [] ⟨true, true, .success⟩] =
      .reply true :: .spawn ["/bin/bash", "-l"] .ptyFileAttach ::
        .setsize 4464 34464 ::
          .reply true :: (waitEvents .success ++ [.closeChannel]) ∧
    handleRequests ⟨false, 0, 0, true⟩ [.windowChange true 70000 100000] =
      .setsize 4464 34464 :: handleRequests ⟨false, 70000, 100000, true⟩ [] := by
  have h := C10_truncation ⟨false, 0, 0, true⟩ [] 70000 100000 ⟨true, true, .success⟩
    rfl (by norm_num) (by norm_num)
  exact ⟨h.1, h.2 rfl⟩

end SSHDemo
